import Mathlib

/-!
Verification of the stitch-up video-conversion pipeline (Go sources) against
its natural-language specification.

The development is a shallow embedding of the relevant Go code:

* `pkg/4_videoconversion/converter.go` — `Convert`, `pollForVideo`,
  `downloadVideo`, `createPlaceholderVideos`, `createPlaceholderVideo`.
* the scene-generation module — `generateSceneID`, `SaveScenesToFile`,
  and the `Scene` struct of `pkg/common` together with `loadScenesFromFile`.

Go `map[string]interface{}` values decoded from JSON are modelled by the
`JVal` tree; strings are Lean `String` (or `List Char` where character-level
reasoning is needed); byte slices are `List Nat`; the filesystem and the
network are oracles passed in explicitly, so every effectful Go function
becomes a pure Lean function of its oracles.
-/

namespace StitchUp

/-- JSON value as produced by Go `encoding/json` unmarshalling into
`interface{}`: strings, objects (`map[string]interface{}`), arrays, numbers,
booleans and null.  Objects are association lists keyed by strings. -/
inductive JVal where
  | str : String → JVal
  | obj : List (String × JVal) → JVal
  | arr : List JVal → JVal
  | num : Int → JVal
  | bool : Bool → JVal
  | null : JVal

/-- Go type assertion `m[k].(string)`: the key must be present and hold a
string, otherwise the assertion yields `ok = false`. -/
def getString (m : List (String × JVal)) (k : String) : Option String :=
  match m.lookup k with
  | some (JVal.str s) => some s
  | _ => none

/-- Go type assertion `m[k].(map[string]interface{})`. -/
def getObj (m : List (String × JVal)) (k : String) : Option (List (String × JVal)) :=
  match m.lookup k with
  | some (JVal.obj o) => some o
  | _ => none

/-- Go type assertion `m[k].([]interface{})`. -/
def getArr (m : List (String × JVal)) (k : String) : Option (List JVal) :=
  match m.lookup k with
  | some (JVal.arr l) => some l
  | _ => none

/-- Error outcomes of `pollForVideo` / `downloadVideo`
(`converter.go`).  `parseFailed` is the "failed to parse response" error,
`noVideoURL` the "no video URL in response" error (the spec's
`MissingResultLocation`), `generationFailed msg` the
"video generation failed: msg" error (the spec's `GenerationFailed`),
`timedOut` the "timed out waiting for video generation" error (the spec's
`PollTimeout`), and `downloadFailed` the non-200 download error (the spec's
`DownloadError`). -/
inductive PollError where
  | parseFailed : PollError
  | noVideoURL : PollError
  | generationFailed : String → PollError
  | timedOut : PollError
  | downloadFailed : PollError
deriving DecidableEq

/-- An HTTP response for the plain result download: status code and body
bytes. -/
structure DlResponse where
  status : Nat
  body : List Nat
deriving DecidableEq

/-- `downloadVideo` (converter.go, lines 309-330): GET the result URL via the
`http` oracle; a non-200 status is an error, otherwise the body bytes are
returned. -/
def downloadVideo (http : String → DlResponse) (url : String) : Except PollError (List Nat) :=
  let resp := http url
  if resp.status ≠ 200 then Except.error PollError.downloadFailed
  else Except.ok resp.body

/-- One status-query response as seen by `pollForVideo`: the HTTP status code
and, when the body unmarshals into `map[string]interface{}`, the decoded
object (`none` models a body that fails to unmarshal). -/
structure PollResponse where
  httpStatus : Nat
  body : Option (List (String × JVal))

/-- Result-location lookup of `pollForVideo` on a `completed` response
(converter.go, lines 272-284): try `videoUrl` as a string; failing that, try
`output` as an object and `output.video` as a string; no third shape is
attempted. -/
def resolveVideoURL (m : List (String × JVal)) : Option String :=
  match getString m "videoUrl" with
  | some u => some u
  | none =>
    match getObj m "output" with
    | some o => getString o "video"
    | none => none

/-- Modelled from the spec: the claimed result-location lookup, which tries
the three shapes `videoUrl`, `output.video`, `output[0]` in order, first
match wins.  Stated for comparison with `resolveVideoURL`, the lookup the Go
poller actually performs; the `output[0]` shape appears only in the external
`video-converter.js` strategy. -/
def resolveVideoURLClaim (m : List (String × JVal)) : Option String :=
  match getString m "videoUrl" with
  | some u => some u
  | none =>
    match getObj m "output" with
    | some o =>
      match getString o "video" with
      | some u => some u
      | none =>
        match getArr m "output" with
        | some (JVal.str u :: _) => some u
        | _ => none
    | none =>
      match getArr m "output" with
      | some (JVal.str u :: _) => some u
      | _ => none

/-- One iteration of the polling loop body of `pollForVideo`
(converter.go, lines 212-303), given the parsed response of the current
status query.  `none` means "continue polling" (sleep `pollInterval`, next
attempt); `some r` means the loop returns `r`.

* non-200 HTTP status: log and continue (the alternative-URL heuristic for a
  404 on the first attempt only changes the target of later queries, which
  the `responses` oracle of `pollGo` abstracts over);
* body that fails to unmarshal: return the parse error;
* missing / non-string `status` field: log and continue;
* `status == "completed"`: resolve the result location and download it, or
  fail with `noVideoURL` when no shape matches;
* `status == "failed"`: fail with `generationFailed`, carrying the response's
  `error` string when present and `"unknown error"` otherwise;
* any other status string: still processing, continue. -/
def pollStep (http : String → DlResponse) (resp : PollResponse) :
    Option (Except PollError (List Nat)) :=
  if resp.httpStatus ≠ 200 then none
  else
    match resp.body with
    | none => some (Except.error PollError.parseFailed)
    | some m =>
      match getString m "status" with
      | none => none
      | some s =>
        if s = "completed" then
          match resolveVideoURL m with
          | some url => some (downloadVideo http url)
          | none => some (Except.error PollError.noVideoURL)
        else if s = "failed" then
          match getString m "error" with
          | some msg => some (Except.error (PollError.generationFailed msg))
          | none => some (Except.error (PollError.generationFailed "unknown error"))
        else none

/-- A status-query response on which the polling loop continues (no terminal
status, no in-loop error): non-200, or a well-formed body whose `status`
field is absent, non-string, or neither `"completed"` nor `"failed"`. -/
def isNonTerminal (resp : PollResponse) : Bool :=
  if resp.httpStatus ≠ 200 then true
  else
    match resp.body with
    | none => false
    | some m =>
      match getString m "status" with
      | none => true
      | some s => s ≠ "completed" && s ≠ "failed"

/-- `maxAttempts := 60` (converter.go, line 207). -/
def maxAttempts : Nat := 60

/-- `pollInterval := 5 * time.Second` (converter.go, line 210), in seconds. -/
def pollInterval : Nat := 5

/-- The polling loop of `pollForVideo`, with the remaining attempt budget as
fuel.  `responses i` is the (parsed) response to the `i`-th status query
(0-based); the function returns the loop's result, the number of status
queries performed, and the list of sleep durations taken (one constant
`pollInterval` sleep per non-terminal iteration, none on a terminal one). -/
def pollGo (responses : Nat → PollResponse) (http : String → DlResponse) :
    Nat → Nat → Except PollError (List Nat) × Nat × List Nat
  | 0, _ => (Except.error PollError.timedOut, 0, [])
  | fuel + 1, idx =>
    match pollStep http (responses idx) with
    | some r => (r, 1, [])
    | none =>
      let next := pollGo responses http fuel (idx + 1)
      (next.1, next.2.1 + 1, pollInterval :: next.2.2)

/-- `pollForVideo` (converter.go, lines 200-306): run the polling loop for at
most `maxAttempts` status queries; if no iteration terminates the loop, the
result is the timeout error. -/
def pollForVideo (responses : Nat → PollResponse) (http : String → DlResponse) :
    Except PollError (List Nat) × Nat × List Nat :=
  pollGo responses http maxAttempts 0

/-! ### Scene-id derivation (`generateSceneID`, scene-generation module)

Go strings are modelled here as `List Char` so that character-level facts
(which characters survive the replacements) can be stated and proved. -/

/-- Scan for `filepath.Ext`: walk the reversed path, accumulating the suffix
seen so far; the first `.` found before any `/` starts the extension, hitting
a `/` (or the start of the path) first means there is none. -/
def goExtRev : List Char → List Char → Option (List Char)
  | [], _ => none
  | c :: rest, acc =>
    if c = '/' then none
    else if c = '.' then some (c :: acc)
    else goExtRev rest (c :: acc)

/-- `filepath.Ext`: the suffix of the path starting at the final dot of the
final path element; empty when that element has no dot. -/
def goExt (p : List Char) : List Char :=
  (goExtRev p.reverse []).getD []

/-- `strings.TrimSuffix s suffix`: drop `suffix` from the end of `s` when it
is a suffix of `s`, otherwise return `s` unchanged. -/
def trimSuffix (s suffix : List Char) : List Char :=
  if suffix.isSuffixOf s then s.take (s.length - suffix.length) else s

/-- `strings.ReplaceAll s (String.singleton a) (String.singleton b)`: for a
single-character pattern and replacement this is exactly a character map. -/
def replaceChar (a b : Char) (s : List Char) : List Char :=
  s.map (fun c => if c = a then b else c)

/-- `generateSceneID` (scene-generation module, lines 231-241): remove the
extension, replace spaces and hyphens by underscores, and add the `scene_`
prefix.  The function performs no lower-casing. -/
def generateSceneID (imageName : List Char) : List Char :=
  let name := trimSuffix imageName (goExt imageName)
  let name := replaceChar ' ' '_' name
  let name := replaceChar '-' '_' name
  "scene_".data ++ name

/-- Modelled from the spec: the claimed derivation, which in addition
lower-cases the extension-stripped filename before the replacements.  Stated
for comparison with `generateSceneID`, the derivation the code performs. -/
def sceneIDClaim (imageName : List Char) : List Char :=
  let name := trimSuffix imageName (goExt imageName)
  let name := name.map Char.toLower
  let name := replaceChar ' ' '_' name
  let name := replaceChar '-' '_' name
  "scene_".data ++ name

/-! ### Scene persistence (`Scene`, `SaveScenesToFile`, `loadScenesFromFile`)

`SaveScenesToFile` marshals a `[]common.Scene` with `encoding/json` and
writes the bytes; `loadScenesFromFile` reads them back and unmarshals.  The
byte-level JSON encode/decode pair of `encoding/json` is modelled at the
level of the JSON value tree (`JVal`): marshalling produces the array of
objects below, unmarshalling interprets such a tree back into scenes with
Go's semantics (missing or null field ⇒ zero value `""`, field of a
non-string JSON type ⇒ unmarshal error, unknown keys ignored). -/

/-- `common.Scene` (pkg/common): five string fields with JSON tags
`description`, `source_title`, `id`, `title`, `mood`, in declaration
order. -/
structure Scene where
  Description : String
  SourceTitle : String
  ID : String
  Title : String
  Mood : String
deriving DecidableEq

/-- JSON object produced by `json.Marshal` for one `Scene`: the tagged
fields in struct declaration order, each a JSON string. -/
def sceneToJson (s : Scene) : JVal :=
  JVal.obj [("description", JVal.str s.Description),
            ("source_title", JVal.str s.SourceTitle),
            ("id", JVal.str s.ID),
            ("title", JVal.str s.Title),
            ("mood", JVal.str s.Mood)]

/-- `json.Unmarshal` of one object field into a `string` struct field:
a missing key or JSON null leaves the zero value `""`; a string value is
taken as is; any other JSON type is an unmarshal error. -/
def getField (m : List (String × JVal)) (k : String) : Option String :=
  match m.lookup k with
  | none => some ""
  | some (JVal.str s) => some s
  | some JVal.null => some ""
  | some _ => none

/-- `json.Unmarshal` of one JSON value into a `common.Scene`. -/
def jsonToScene (v : JVal) : Option Scene :=
  match v with
  | JVal.obj m =>
    match getField m "description", getField m "source_title", getField m "id",
          getField m "title", getField m "mood" with
    | some d, some st, some i, some t, some mo => some ⟨d, st, i, t, mo⟩
    | _, _, _, _, _ => none
  | _ => none

/-- `SaveScenesToFile` (scene-generation module, lines 398-419), at the JSON
value level: marshal the scene list as a JSON array of scene objects. -/
def saveScenesJson (scenes : List Scene) : JVal :=
  JVal.arr (scenes.map sceneToJson)

/-- Element-wise decoding of a JSON array into scenes; any element that
fails to decode fails the whole unmarshal, as in `encoding/json`. -/
def scenesFromList : List JVal → Option (List Scene)
  | [] => some []
  | v :: rest =>
    match jsonToScene v, scenesFromList rest with
    | some s, some ss => some (s :: ss)
    | _, _ => none

/-- `loadScenesFromFile` (image-creator main, lines 78-93), at the JSON value
level: unmarshal a JSON array into a `[]common.Scene`. -/
def loadScenesJson (v : JVal) : Option (List Scene) :=
  match v with
  | JVal.arr l => scenesFromList l
  | _ => none

/-! ### The `Convert` orchestrator (converter.go, lines 34-100, 333-383)

Filesystem, network and UUID generation are oracles collected in `ConvEnv`;
`generate` stands for one whole `generateVideoWithRunway` interaction
(submission, polling, download) for the item at a given batch position, and
invoking it is the only way the orchestrator touches the network. -/

/-- `common.Image` (pkg/common). -/
structure Image where
  Path : String
  SceneID : String
  Description : String
deriving DecidableEq

/-- `common.Video` (pkg/common). -/
structure Video where
  Path : String
  ImageID : String
  Length : Int
deriving DecidableEq

/-- `config.VideoConversionConfig` (pkg/config), the fields `Convert`
reads. -/
structure VideoConversionConfig where
  RunwayAPIKey : String
  OutputDir : String
  VideoLength : Int

/-- Environment oracles for `Convert`: `readFile` is `os.ReadFile` on an
image path (`none` = read error); `generate` is the whole
`generateVideoWithRunway` network interaction for the item at a given batch
position (`Except.error` = any submission/polling/download failure);
`uuid` is `uuid.New().String()` at a given position; `mkdirOk`, `writeOk`
and `createOk` are the success of `os.MkdirAll`, `os.WriteFile`, and
`os.Create` plus `WriteString` on a given path. -/
structure ConvEnv where
  readFile : String → Option (List Nat)
  generate : Nat → List Nat → String → Except String (List Nat)
  uuid : Nat → String
  mkdirOk : String → Bool
  writeOk : String → Bool
  createOk : String → Bool

/-- `filepath.Base`, ignoring Windows separators: empty path gives `"."`,
trailing slashes are dropped, then everything up to the last slash; an
all-slash path gives `"/"`. -/
def baseL (l : List Char) : List Char :=
  if l = [] then ['.']
  else
    let r := l.reverse.dropWhile (fun c => c = '/')
    let comp := (r.takeWhile (fun c => c ≠ '/')).reverse
    if comp = [] then ['/'] else comp

/-- `filepath.Base` on `String`. -/
def goBase (s : String) : String := String.mk (baseL s.data)

/-- `strings.TrimSuffix name (filepath.Ext name)` on `String`: the filename
with its extension removed. -/
def trimExtS (s : String) : String := String.mk (trimSuffix s.data (goExt s.data))

/-- `filepath.Dir`, simplified to "everything before the last slash"
(`"."` when there is no slash); `filepath.Clean` of the result is elided, as
no claim inspects the directory string itself. -/
def dirOf (s : String) : String :=
  match s.data.reverse.dropWhile (fun c => c ≠ '/') with
  | [] => "."
  | _ :: tail => String.mk tail.reverse

/-- `filepath.Join` of a directory and a file name, with `Clean` elided. -/
def joinPath (a b : String) : String :=
  if a = "" then b else a ++ "/" ++ b

/-- One iteration of the key-present loop body of `Convert` (converter.go,
lines 45-92) for the image at batch position `i`: read the image, run the
Runway interaction, build the output path with a fresh UUID fragment, ensure
the directory, write the bytes; any failure skips the item (`none`), success
yields the appended `Video` record. -/
def processItem (cfg : VideoConversionConfig) (env : ConvEnv) (img : Image) (i : Nat) :
    Option Video :=
  match env.readFile img.Path with
  | none => none
  | some imageData =>
    match env.generate i imageData img.Description with
    | Except.error _ => none
    | Except.ok _videoData =>
      let baseFilename := trimExtS (goBase img.Path)
      let filename := "video_" ++ baseFilename ++ "_" ++ (env.uuid i).take 8 ++ ".mp4"
      let videoPath := joinPath cfg.OutputDir filename
      if env.mkdirOk (dirOf videoPath) && env.writeOk videoPath then
        some { Path := videoPath, ImageID := img.SceneID, Length := cfg.VideoLength }
      else none

/-- The key-present loop of `Convert` over the batch, starting at position
`i`: the collected videos in input order, and the number of network
interactions performed (`generateVideoWithRunway` is invoked exactly when
the image file was read successfully). -/
def convertLoop (cfg : VideoConversionConfig) (env : ConvEnv) :
    List Image → Nat → List Video × Nat
  | [], _ => ([], 0)
  | img :: rest, i =>
    let netHere : Nat := match env.readFile img.Path with | none => 0 | some _ => 1
    let next := convertLoop cfg env rest (i + 1)
    match processItem cfg env img i with
    | some v => (v :: next.1, netHere + next.2)
    | none => (next.1, netHere + next.2)

/-- `createPlaceholderVideo` (converter.go, lines 366-383): ensure the
directory, create the file and write the placeholder text; success of the
three filesystem steps. -/
def createPlaceholderVideo (env : ConvEnv) (path : String) : Bool :=
  env.mkdirOk (dirOf path) && env.createOk path

/-- One iteration of the `createPlaceholderVideos` loop (converter.go,
lines 336-360) for the image at batch position `i`. -/
def placeholderItem (cfg : VideoConversionConfig) (env : ConvEnv) (img : Image) (i : Nat) :
    Option Video :=
  let baseFilename := trimExtS (goBase img.Path)
  let filename := "placeholder_" ++ baseFilename ++ "_" ++ (env.uuid i).take 8 ++ ".mp4"
  let videoPath := joinPath cfg.OutputDir filename
  if createPlaceholderVideo env videoPath then
    some { Path := videoPath, ImageID := img.SceneID, Length := cfg.VideoLength }
  else none

/-- `createPlaceholderVideos` (converter.go, lines 333-363): build one
placeholder video per image, skipping any whose file creation fails; always
returns with a nil error. -/
def createPlaceholderVideos (cfg : VideoConversionConfig) (env : ConvEnv) :
    List Image → Nat → List Video
  | [], _ => []
  | img :: rest, i =>
    match placeholderItem cfg env img i with
    | some v => v :: createPlaceholderVideos cfg env rest (i + 1)
    | none => createPlaceholderVideos cfg env rest (i + 1)

/-- The stage-level error of `Convert`: `"no videos created"` (the spec's
`NoArtifactsProduced`). -/
inductive ConvErr where
  | noVideosCreated : ConvErr
deriving DecidableEq

/-- `Convert` (converter.go, lines 34-100): with no Runway API key, return
the placeholder videos with a nil error and zero network interactions;
otherwise run the per-item loop and fail with the no-videos error exactly
when the collected list is empty.  The second component counts network
interactions performed. -/
def Convert (cfg : VideoConversionConfig) (env : ConvEnv) (images : List Image) :
    Except ConvErr (List Video) × Nat :=
  if cfg.RunwayAPIKey = "" then
    (Except.ok (createPlaceholderVideos cfg env images 0), 0)
  else
    let r := convertLoop cfg env images 0
    if r.1.length = 0 then (Except.error ConvErr.noVideosCreated, r.2)
    else (Except.ok r.1, r.2)

/-- Number of items of the batch (from position `i` on) that succeed
end-to-end in the key-present loop. -/
def countOk (cfg : VideoConversionConfig) (env : ConvEnv) : List Image → Nat → Nat
  | [], _ => 0
  | img :: rest, i =>
    (if (processItem cfg env img i).isSome then 1 else 0) + countOk cfg env rest (i + 1)

/-! ### Concrete configurations and environments used to instantiate the
theorems on closed inputs. -/

/-- A configuration with a Runway API key present. -/
def cfgKey : VideoConversionConfig := ⟨"key", "out", 5⟩

/-- A configuration with the Runway API key absent. -/
def cfgNoKey : VideoConversionConfig := ⟨"", "out", 10⟩

/-- An environment in which every filesystem and network operation
succeeds. -/
def envOk : ConvEnv :=
  ⟨fun _ => some [1], fun _ _ _ => Except.ok [2], fun _ => "0123456789ab",
   fun _ => true, fun _ => true, fun _ => true⟩

/-- An environment in which reading the image at path `"bad"` fails and
everything else succeeds. -/
def envMixed : ConvEnv :=
  ⟨fun p => if p = "bad" then none else some [1], fun _ _ _ => Except.ok [2],
   fun _ => "0123456789ab", fun _ => true, fun _ => true, fun _ => true⟩

/-! ### Polling-loop lemmas -/

/-- On a non-terminal status-query response the loop body continues: it
produces no result, for any download oracle. -/
theorem pollStep_none_of_nonTerminal (http : String → DlResponse) {resp : PollResponse}
    (h : isNonTerminal resp = true) : pollStep http resp = none := by
  obtain ⟨st, body⟩ := resp
  by_cases h200 : st ≠ 200
  · simp [pollStep, h200]
  · cases body with
    | none => simp [isNonTerminal, h200] at h
    | some m =>
      cases hs : getString m "status" with
      | none => simp [pollStep, h200, hs]
      | some s =>
        simp only [isNonTerminal, h200, if_false, hs, Bool.and_eq_true, decide_eq_true_eq] at h
        simp [pollStep, h200, hs, h.1, h.2]

/-- If every status query in the fuel window continues, the loop exhausts its
fuel, fails with the timeout error, performs exactly `fuel` queries and
sleeps the constant interval after each of them. -/
theorem pollGo_all_nonTerminal (responses : Nat → PollResponse) (http : String → DlResponse) :
    ∀ (fuel idx : Nat),
      (∀ i, i < fuel → isNonTerminal (responses (idx + i)) = true) →
      pollGo responses http fuel idx =
        (Except.error PollError.timedOut, fuel, List.replicate fuel pollInterval) := by
  intro fuel
  induction fuel with
  | zero => intro idx _; rfl
  | succ f ih =>
    intro idx h
    have h0 : isNonTerminal (responses idx) = true := by
      have := h 0 (Nat.succ_pos f)
      simpa using this
    have ih' := ih (idx + 1) (fun i hi => by
      have := h (i + 1) (Nat.succ_lt_succ hi)
      have e : idx + (i + 1) = idx + 1 + i := by omega
      rwa [e] at this)
    simp only [pollGo, pollStep_none_of_nonTerminal http h0, ih', List.replicate_succ]

/-- If the first `k` status queries continue and the `k`-th (0-based) query
terminates the loop with result `r`, then with more than `k` fuel the loop
returns `r` after exactly `k + 1` queries and `k` constant-interval
sleeps. -/
theorem pollGo_terminates_at (responses : Nat → PollResponse) (http : String → DlResponse)
    (r : Except PollError (List Nat)) :
    ∀ (k fuel idx : Nat), k < fuel →
      (∀ i, i < k → isNonTerminal (responses (idx + i)) = true) →
      pollStep http (responses (idx + k)) = some r →
      pollGo responses http fuel idx = (r, k + 1, List.replicate k pollInterval) := by
  intro k
  induction k with
  | zero =>
    intro fuel idx hf _ hstep
    cases fuel with
    | zero => omega
    | succ f =>
      rw [Nat.add_zero] at hstep
      simp only [pollGo, hstep, List.replicate_zero]
  | succ k ih =>
    intro fuel idx hf h hstep
    cases fuel with
    | zero => omega
    | succ f =>
      have h0 : isNonTerminal (responses idx) = true := by
        have := h 0 (Nat.succ_pos k)
        simpa using this
      have hstep' : pollStep http (responses (idx + 1 + k)) = some r := by
        have e : idx + (k + 1) = idx + 1 + k := by omega
        rwa [e] at hstep
      have ih' := ih f (idx + 1) (by omega)
        (fun i hi => by
          have := h (i + 1) (Nat.succ_lt_succ hi)
          have e : idx + (i + 1) = idx + 1 + i := by omega
          rwa [e] at this)
        hstep'
      simp only [pollGo, pollStep_none_of_nonTerminal http h0, ih', List.replicate_succ]

/-- C3: given a status-response sequence that never yields a terminal status
within the attempt ceiling, the poller performs exactly `maxAttempts = 60`
status queries (so at most 60, and none after the ceiling), sleeps the same
constant `pollInterval` after every one of them (no exponential backoff),
and fails with the timeout error (`PollTimeout`). -/
theorem pollForVideo_timeout (responses : Nat → PollResponse) (http : String → DlResponse)
    (h : ∀ i, i < maxAttempts → isNonTerminal (responses i) = true) :
    pollForVideo responses http =
      (Except.error PollError.timedOut, maxAttempts, List.replicate maxAttempts pollInterval)
    ∧ maxAttempts = 60 := by
  constructor
  · have := pollGo_all_nonTerminal responses http maxAttempts 0
      (fun i hi => by simpa using h i hi)
    simpa [pollForVideo] using this
  · rfl

/-- Witness for C3: a sequence that always reports `RUNNING` times out after
exactly 60 queries. -/
theorem pollForVideo_timeout_witness :
    pollForVideo (fun _ => ⟨200, some [("status", JVal.str "RUNNING")]⟩) (fun _ => ⟨200, []⟩) =
      (Except.error PollError.timedOut, maxAttempts, List.replicate maxAttempts pollInterval) :=
  (pollForVideo_timeout _ _ (fun i _ => by decide)).1

/-- C4: given the status sequence `[QUEUED, RUNNING, RUNNING, completed]`
with a valid `videoUrl` result location on the fourth response, the poller
performs exactly four status queries (three constant-interval sleeps, none
after the terminal status) and returns exactly the bytes downloaded from
that result location. -/
theorem pollForVideo_mixed_sequence (responses : Nat → PollResponse) (http : String → DlResponse)
    (u : String) (bs : List Nat)
    (h0 : responses 0 = ⟨200, some [("status", JVal.str "QUEUED")]⟩)
    (h1 : responses 1 = ⟨200, some [("status", JVal.str "RUNNING")]⟩)
    (h2 : responses 2 = ⟨200, some [("status", JVal.str "RUNNING")]⟩)
    (h3 : responses 3 = ⟨200, some [("status", JVal.str "completed"), ("videoUrl", JVal.str u)]⟩)
    (hd : http u = ⟨200, bs⟩) :
    pollForVideo responses http = (Except.ok bs, 4, List.replicate 3 pollInterval) := by
  have hstep : pollStep http (responses 3) = some (Except.ok bs) := by
    rw [h3]
    show some (downloadVideo http u) = some (Except.ok bs)
    simp [downloadVideo, hd]
  have hnt : ∀ i, i < 3 → isNonTerminal (responses (0 + i)) = true := by
    intro i hi
    have : i = 0 ∨ i = 1 ∨ i = 2 := by omega
    rcases this with h | h | h <;> subst h
    · rw [Nat.add_zero, h0]; decide
    · rw [Nat.zero_add, h1]; decide
    · rw [Nat.zero_add, h2]; decide
  have := pollGo_terminates_at responses http (Except.ok bs) 3 maxAttempts 0
    (by decide) hnt (by rwa [Nat.zero_add])
  simpa [pollForVideo] using this

/-- Witness for C4: a concrete four-response sequence with the result at
`videoUrl` returns the downloaded bytes `[9, 8, 7]` after four queries. -/
theorem pollForVideo_mixed_sequence_witness :
    pollForVideo
      (fun i =>
        if i = 0 then ⟨200, some [("status", JVal.str "QUEUED")]⟩
        else if i = 3 then ⟨200, some [("status", JVal.str "completed"), ("videoUrl", JVal.str "http://v")]⟩
        else ⟨200, some [("status", JVal.str "RUNNING")]⟩)
      (fun _ => ⟨200, [9, 8, 7]⟩) =
      (Except.ok [9, 8, 7], 4, List.replicate 3 pollInterval) :=
  pollForVideo_mixed_sequence _ _ "http://v" [9, 8, 7] rfl rfl rfl rfl rfl

/-- C5: a status response whose status string is neither `"completed"` nor
`"failed"` is treated as still running: the loop body produces no failure,
the loop sleeps the poll interval and issues the next status query. -/
theorem unrecognized_status_continues (responses : Nat → PollResponse) (http : String → DlResponse)
    (fuel idx : Nat) (m : List (String × JVal)) (s : String)
    (hr : responses idx = ⟨200, some m⟩)
    (hs : getString m "status" = some s)
    (hc : s ≠ "completed") (hf : s ≠ "failed") :
    pollStep http (responses idx) = none ∧
    pollGo responses http (fuel + 1) idx =
      ((pollGo responses http fuel (idx + 1)).1,
       (pollGo responses http fuel (idx + 1)).2.1 + 1,
       pollInterval :: (pollGo responses http fuel (idx + 1)).2.2) := by
  have hnone : pollStep http (responses idx) = none := by
    rw [hr]
    simp [pollStep, hs, hc, hf]
  refine ⟨hnone, ?_⟩
  simp only [pollGo, hnone]

/-- Witness for C5: a `"PENDING"` status (terminal for no known provider
vocabulary) makes the loop continue to the next query. -/
theorem unrecognized_status_continues_witness :
    pollStep (fun _ => ⟨200, []⟩) ((fun _ => (⟨200, some [("status", JVal.str "PENDING")]⟩ : PollResponse)) 0) = none ∧
    pollGo (fun _ => ⟨200, some [("status", JVal.str "PENDING")]⟩) (fun _ => ⟨200, []⟩) (2 + 1) 0 =
      ((pollGo (fun _ => ⟨200, some [("status", JVal.str "PENDING")]⟩) (fun _ => ⟨200, []⟩) 2 (0 + 1)).1,
       (pollGo (fun _ => ⟨200, some [("status", JVal.str "PENDING")]⟩) (fun _ => ⟨200, []⟩) 2 (0 + 1)).2.1 + 1,
       pollInterval :: (pollGo (fun _ => ⟨200, some [("status", JVal.str "PENDING")]⟩) (fun _ => ⟨200, []⟩) 2 (0 + 1)).2.2) :=
  unrecognized_status_continues (fun _ => ⟨200, some [("status", JVal.str "PENDING")]⟩)
    (fun _ => ⟨200, []⟩) 2 0 [("status", JVal.str "PENDING")] "PENDING" rfl rfl
    (by decide) (by decide)

/-- C6: on a `"failed"` status the poller fails with `GenerationFailed`
carrying the response's embedded `error` string exactly when one is present
and the generic `"unknown error"` message otherwise; the result is the same
for every download oracle, so no download is performed in either case. -/
theorem failed_status_generation_failed (m : List (String × JVal))
    (hst : getString m "status" = some "failed") :
    (∀ (http : String → DlResponse) (msg : String), getString m "error" = some msg →
      pollStep http ⟨200, some m⟩ = some (Except.error (PollError.generationFailed msg))) ∧
    (∀ http : String → DlResponse, getString m "error" = none →
      pollStep http ⟨200, some m⟩ = some (Except.error (PollError.generationFailed "unknown error"))) := by
  constructor
  · intro http msg he
    simp [pollStep, hst, he]
  · intro http he
    simp [pollStep, hst, he]

/-- Witness for C6: with embedded error `"quota exceeded"` the failure
carries exactly that message; without one it carries `"unknown error"`. -/
theorem failed_status_generation_failed_witness :
    pollStep (fun _ => ⟨200, []⟩)
      ⟨200, some [("status", JVal.str "failed"), ("error", JVal.str "quota exceeded")]⟩ =
      some (Except.error (PollError.generationFailed "quota exceeded")) ∧
    pollStep (fun _ => ⟨200, []⟩) ⟨200, some [("status", JVal.str "failed")]⟩ =
      some (Except.error (PollError.generationFailed "unknown error")) :=
  ⟨(failed_status_generation_failed _ (by decide)).1 _ "quota exceeded" (by decide),
   (failed_status_generation_failed _ (by decide)).2 _ (by decide)⟩

/-- C2 counterexample: on a completed response whose result sits at
`output[0]` (the `output` field is a JSON array) and that has no `videoUrl`,
the claimed three-shape lookup resolves `"http://v"`, but the poller's actual
lookup finds nothing and the poller fails with the missing-result-location
error instead of trying the `output[0]` shape. -/
theorem resolveVideoURL_output_array_cex :
    resolveVideoURL [("status", JVal.str "completed"), ("output", JVal.arr [JVal.str "http://v"])] = none ∧
    resolveVideoURLClaim [("status", JVal.str "completed"), ("output", JVal.arr [JVal.str "http://v"])] =
      some "http://v" ∧
    pollStep (fun _ => ⟨200, []⟩)
      ⟨200, some [("status", JVal.str "completed"), ("output", JVal.arr [JVal.str "http://v"])]⟩ =
      some (Except.error PollError.noVideoURL) :=
  ⟨rfl, rfl, rfl⟩

/-- C2 (amended): when the poller observes a completed status it resolves
the result location by trying, in order, the shapes `videoUrl` and
`output.video` only, using the first that matches, and fails with the
missing-result-location error after those two shapes are exhausted; in
particular a completed response whose result is nested at `output.video`
but absent at top-level `videoUrl` resolves to the URL at `output.video`
and is downloaded. -/
theorem resolveVideoURL_two_shapes (m : List (String × JVal)) :
    (∀ u, getString m "videoUrl" = some u → resolveVideoURL m = some u) ∧
    (getString m "videoUrl" = none → ∀ o, getObj m "output" = some o →
      resolveVideoURL m = getString o "video") ∧
    (getString m "videoUrl" = none → getObj m "output" = none → resolveVideoURL m = none) ∧
    (∀ http : String → DlResponse, getString m "status" = some "completed" →
      resolveVideoURL m = none →
      pollStep http ⟨200, some m⟩ = some (Except.error PollError.noVideoURL)) ∧
    (∀ (http : String → DlResponse) u, getString m "status" = some "completed" →
      resolveVideoURL m = some u →
      pollStep http ⟨200, some m⟩ = some (downloadVideo http u)) := by
  refine ⟨?_, ?_, ?_, ?_, ?_⟩
  · intro u hu
    simp [resolveVideoURL, hu]
  · intro hn o ho
    simp [resolveVideoURL, hn, ho]
  · intro hn ho
    simp [resolveVideoURL, hn, ho]
  · intro http hst hres
    simp [pollStep, hst, hres]
  · intro http u hst hres
    simp [pollStep, hst, hres]

/-- Witness for C2 (amended): a completed response with the result nested at
`output.video` and no top-level `videoUrl` resolves to that nested URL. -/
theorem resolveVideoURL_two_shapes_witness :
    resolveVideoURL [("status", JVal.str "completed"),
      ("output", JVal.obj [("video", JVal.str "http://w")])] = some "http://w" :=
  ((resolveVideoURL_two_shapes [("status", JVal.str "completed"),
      ("output", JVal.obj [("video", JVal.str "http://w")])]).2.1 (by decide)
    [("video", JVal.str "http://w")] rfl).trans rfl

/-- C7 counterexample: the scene id derived from `"My-Pic.png"` keeps the
original letter case, `scene_My_Pic`, while the claimed derivation
(lower-casing included) would give `scene_my_pic`. -/
theorem generateSceneID_not_lowercased :
    generateSceneID "My-Pic.png".data = "scene_My_Pic".data ∧
    sceneIDClaim "My-Pic.png".data = "scene_my_pic".data ∧
    generateSceneID "My-Pic.png".data ≠ sceneIDClaim "My-Pic.png".data := by
  refine ⟨by decide, by decide, by decide⟩

/-- C7 (amended): for every source image filename the derived scene id
equals the filename with its extension removed, with every space and hyphen
replaced by an underscore (a single character substitution, no
lower-casing), prefixed with `scene_`; consequently the id never contains a
space or a hyphen.  The derivation is a pure function of the filename, hence
deterministic. -/
theorem generateSceneID_characterisation (name : List Char) :
    generateSceneID name =
      "scene_".data ++ (trimSuffix name (goExt name)).map
        (fun c => if c = ' ' ∨ c = '-' then '_' else c) ∧
    ' ' ∉ generateSceneID name ∧ '-' ∉ generateSceneID name := by
  have hfuse : generateSceneID name =
      "scene_".data ++ (trimSuffix name (goExt name)).map
        (fun c => if c = ' ' ∨ c = '-' then '_' else c) := by
    simp only [generateSceneID, replaceChar, List.map_map]
    congr 1
    apply List.map_congr_left
    intro c _
    by_cases h1 : c = ' '
    · subst h1; decide
    · by_cases h2 : c = '-'
      · subst h2; decide
      · simp [Function.comp, h1, h2]
  refine ⟨hfuse, ?_, ?_⟩
  · rw [hfuse]
    intro hmem
    rcases List.mem_append.1 hmem with hmem | hmem
    · exact absurd hmem (by decide)
    · obtain ⟨a, _, hfa⟩ := List.mem_map.1 hmem
      by_cases h : a = ' ' ∨ a = '-'
      · rw [if_pos h] at hfa
        exact absurd hfa (by decide)
      · rw [if_neg h] at hfa
        exact h (Or.inl hfa)
  · rw [hfuse]
    intro hmem
    rcases List.mem_append.1 hmem with hmem | hmem
    · exact absurd hmem (by decide)
    · obtain ⟨a, _, hfa⟩ := List.mem_map.1 hmem
      by_cases h : a = ' ' ∨ a = '-'
      · rw [if_pos h] at hfa
        exact absurd hfa (by decide)
      · rw [if_neg h] at hfa
        exact h (Or.inr hfa)

/-- C9: serialising any list of scenes (empty-string fields included) to the
persisted JSON schema and re-reading it reproduces the scenes exactly,
element by element. -/
theorem scenes_roundtrip (scenes : List Scene) :
    loadScenesJson (saveScenesJson scenes) = some scenes := by
  induction scenes with
  | nil => rfl
  | cons s rest ih =>
    have h1 : jsonToScene (sceneToJson s) = some s := rfl
    have ih' : scenesFromList (rest.map sceneToJson) = some rest := ih
    show scenesFromList (sceneToJson s :: rest.map sceneToJson) = some (s :: rest)
    simp [scenesFromList, h1, ih']

/-! ### Orchestrator lemmas -/

/-- The key-present loop collects exactly one video per end-to-end
successful item, in order: a failing item is skipped and the rest of the
batch continues. -/
theorem convertLoop_length (cfg : VideoConversionConfig) (env : ConvEnv) :
    ∀ (l : List Image) (i : Nat),
      (convertLoop cfg env l i).1.length = countOk cfg env l i := by
  intro l
  induction l with
  | nil => intro i; rfl
  | cons img rest ih =>
    intro i
    simp only [convertLoop, countOk]
    cases h : processItem cfg env img i with
    | none => simp [h, ih]
    | some v => simp [h, ih]; omega

/-- At most one video per input item. -/
theorem countOk_le_length (cfg : VideoConversionConfig) (env : ConvEnv) :
    ∀ (l : List Image) (i : Nat), countOk cfg env l i ≤ l.length := by
  intro l
  induction l with
  | nil => intro i; exact Nat.le_refl 0
  | cons img rest ih =>
    intro i
    simp only [countOk, List.length_cons]
    have := ih (i + 1)
    by_cases h : (processItem cfg env img i).isSome <;> simp [h] <;> omega

/-- A successful placeholder item carries its source image's scene id and
the configured video length. -/
theorem placeholderItem_fields (cfg : VideoConversionConfig) (env : ConvEnv)
    (img : Image) (i : Nat) (v : Video)
    (hp : placeholderItem cfg env img i = some v) :
    v.ImageID = img.SceneID ∧ v.Length = cfg.VideoLength := by
  simp only [placeholderItem] at hp
  split at hp
  · cases hp
    exact ⟨rfl, rfl⟩
  · exact Option.noConfusion hp

/-- When every placeholder creation succeeds, the placeholder loop yields
one video per image, pairwise carrying the image's scene id and the
configured length. -/
theorem createPlaceholderVideos_forall2 (cfg : VideoConversionConfig) (env : ConvEnv)
    (hall : ∀ img i, (placeholderItem cfg env img i).isSome = true) :
    ∀ (l : List Image) (i : Nat),
      List.Forall₂ (fun (v : Video) (img : Image) =>
          v.ImageID = img.SceneID ∧ v.Length = cfg.VideoLength)
        (createPlaceholderVideos cfg env l i) l := by
  intro l
  induction l with
  | nil => intro i; exact List.Forall₂.nil
  | cons img rest ih =>
    intro i
    have h := hall img i
    cases hp : placeholderItem cfg env img i with
    | none => rw [hp] at h; simp at h
    | some v =>
      simp only [createPlaceholderVideos, hp]
      exact List.Forall₂.cons (placeholderItem_fields cfg env img i v hp) (ih (i + 1))

/-- C1: with an API key configured, if at least one batch item succeeds
end-to-end then `Convert` returns between 1 and N videos (exactly one per
succeeding item, so no failing item aborts the rest) and no error; if every
item fails it returns no videos and fails with the
`"no videos created"` error (`NoArtifactsProduced`). -/
theorem convert_partial_batch (cfg : VideoConversionConfig) (env : ConvEnv)
    (images : List Image) (hkey : cfg.RunwayAPIKey ≠ "") :
    (0 < countOk cfg env images 0 →
      ∃ vs, (Convert cfg env images).1 = Except.ok vs ∧
        vs.length = countOk cfg env images 0 ∧
        1 ≤ vs.length ∧ vs.length ≤ images.length) ∧
    (countOk cfg env images 0 = 0 →
      (Convert cfg env images).1 = Except.error ConvErr.noVideosCreated) := by
  have hlen := convertLoop_length cfg env images 0
  have hle := countOk_le_length cfg env images 0
  constructor
  · intro hpos
    refine ⟨(convertLoop cfg env images 0).1, ?_, hlen, ?_, ?_⟩
    · simp only [Convert, if_neg hkey]
      rw [if_neg (by rw [hlen]; omega)]
    · rw [hlen]; omega
    · rw [hlen]; exact hle
  · intro hz
    simp only [Convert, if_neg hkey]
    rw [if_pos (by rw [hlen]; exact hz)]

/-- Witness for C1: with a key configured, a two-image batch whose first
image cannot be read and whose second succeeds yields exactly one video and
no error. -/
theorem convert_partial_batch_witness :
    countOk cfgKey envMixed [⟨"bad", "s1", "d1"⟩, ⟨"good.png", "s2", "d2"⟩] 0 = 1 ∧
    (0 < countOk cfgKey envMixed [⟨"bad", "s1", "d1"⟩, ⟨"good.png", "s2", "d2"⟩] 0 →
      ∃ vs, (Convert cfgKey envMixed [⟨"bad", "s1", "d1"⟩, ⟨"good.png", "s2", "d2"⟩]).1 = Except.ok vs ∧
        vs.length = countOk cfgKey envMixed [⟨"bad", "s1", "d1"⟩, ⟨"good.png", "s2", "d2"⟩] 0 ∧
        1 ≤ vs.length ∧
        vs.length ≤ ([⟨"bad", "s1", "d1"⟩, ⟨"good.png", "s2", "d2"⟩] : List Image).length) :=
  ⟨by decide,
   (convert_partial_batch cfgKey envMixed [⟨"bad", "s1", "d1"⟩, ⟨"good.png", "s2", "d2"⟩]
     (by decide)).1⟩

/-- C8: with the provider API key absent and placeholder file creation
succeeding, `Convert` performs zero network interactions and returns exactly
one placeholder video per input image, each carrying its source image's
scene id and the configured video length, with no error. -/
theorem convert_placeholder_batch (cfg : VideoConversionConfig) (env : ConvEnv)
    (images : List Image) (hkey : cfg.RunwayAPIKey = "")
    (hall : ∀ img i, (placeholderItem cfg env img i).isSome = true) :
    ∃ vs, Convert cfg env images = (Except.ok vs, 0) ∧
      vs.length = images.length ∧
      List.Forall₂ (fun (v : Video) (img : Image) =>
          v.ImageID = img.SceneID ∧ v.Length = cfg.VideoLength) vs images := by
  refine ⟨createPlaceholderVideos cfg env images 0, ?_, ?_, ?_⟩
  · simp [Convert, hkey]
  · exact (createPlaceholderVideos_forall2 cfg env hall images 0).length_eq
  · exact createPlaceholderVideos_forall2 cfg env hall images 0

/-- Witness for C8: three input images with no API key produce three
placeholder videos referencing their scene ids, with zero network
interactions. -/
theorem convert_placeholder_batch_witness :
    ∃ vs, Convert cfgNoKey envOk [⟨"a.png", "sa", "da"⟩, ⟨"b.png", "sb", "db"⟩, ⟨"c.png", "sc", "dc"⟩] =
        (Except.ok vs, 0) ∧
      vs.length = ([⟨"a.png", "sa", "da"⟩, ⟨"b.png", "sb", "db"⟩, ⟨"c.png", "sc", "dc"⟩] : List Image).length ∧
      List.Forall₂ (fun (v : Video) (img : Image) =>
          v.ImageID = img.SceneID ∧ v.Length = cfgNoKey.VideoLength) vs
        [⟨"a.png", "sa", "da"⟩, ⟨"b.png", "sb", "db"⟩, ⟨"c.png", "sc", "dc"⟩] :=
  convert_placeholder_batch cfgNoKey envOk
    [⟨"a.png", "sa", "da"⟩, ⟨"b.png", "sb", "db"⟩, ⟨"c.png", "sc", "dc"⟩]
    rfl (fun _ _ => rfl)

/-- C10: with the API key absent `Convert` never returns an error — the
placeholder branch returns its (possibly empty) list with a nil error and
never reaches the empty-output check — so an empty batch with no key yields
zero videos and success, whereas with a key present an empty batch fails
with the `"no videos created"` error. -/
theorem convert_empty_batch (cfg : VideoConversionConfig) (env : ConvEnv) :
    (cfg.RunwayAPIKey = "" → ∀ images, ∃ vs, Convert cfg env images = (Except.ok vs, 0)) ∧
    (cfg.RunwayAPIKey = "" → Convert cfg env [] = (Except.ok [], 0)) ∧
    (cfg.RunwayAPIKey ≠ "" → Convert cfg env [] = (Except.error ConvErr.noVideosCreated, 0)) := by
  refine ⟨?_, ?_, ?_⟩
  · intro hk images
    exact ⟨createPlaceholderVideos cfg env images 0, by simp [Convert, hk]⟩
  · intro hk
    simp [Convert, hk, createPlaceholderVideos]
  · intro hk
    simp [Convert, hk, convertLoop]

/-- Witness for C10: an empty batch succeeds with no videos when the key is
absent and fails with the no-videos error when a key is configured. -/
theorem convert_empty_batch_witness :
    Convert cfgNoKey envOk [] = (Except.ok [], 0) ∧
    Convert cfgKey envOk [] = (Except.error ConvErr.noVideosCreated, 0) :=
  ⟨(convert_empty_batch cfgNoKey envOk).2.1 rfl,
   (convert_empty_batch cfgKey envOk).2.2 (by decide)⟩

end StitchUp
